import Mathlib

/-!
Verification development for the horizon-auto-reporting repository.

The embedded code lives in:
  - src/server.js                      (main Express server)
  - src/unnamed/part_000, part_001     (near-identical server variants)
  - src/unnamed/part_002               (chart-insight utility variant)
  - src/client/src/components/ReportEditor.js   (two concatenated variants)
  - src/client/src/utils/chartUtils.js

JavaScript numbers are modelled by exact rationals where only field
arithmetic and comparisons occur, and by reals where sqrt and log10 are
involved.  Timestamps (milliseconds since the epoch) are modelled by
integers.  Where the JavaScript code can produce the non-finite values
NaN or plus/minus Infinity, the model makes that explicit: either through
an Option type (none marks a non-finite result) or through the JSQ type
below, which carries the non-finite values of the percent-change
computation through the comparison logic exactly as JavaScript does.
-/

namespace HorizonAuto

/-! ## Extended number model for the trend computation -/

/-- Result of a JavaScript floating-point computation that may be
non-finite: a finite rational, a signed infinity, or NaN. -/
inductive JSQ where
  | fin (x : ℚ)
  | posInf
  | negInf
  | nan
deriving DecidableEq

/-- JavaScript Math.abs on the extended values. -/
def JSQ.abs : JSQ → JSQ
  | .fin x => .fin |x|
  | .posInf => .posInf
  | .negInf => .posInf
  | .nan => .nan

/-- JavaScript strict less-than: every comparison involving NaN is false,
and the infinities compare in the usual way. -/
def JSQ.lt : JSQ → JSQ → Bool
  | .fin x, .fin y => decide (x < y)
  | .fin _, .posInf => true
  | .negInf, .fin _ => true
  | .negInf, .posInf => true
  | _, _ => false

/-- Decimal rendering of a nonnegative finite value to one decimal place,
as JavaScript toFixed(1) does for the nonnegative values this program
renders (round half up agrees with round on nonnegative rationals). -/
def ratToFixed1 (q : ℚ) : String :=
  let n : ℤ := round (10 * q)
  toString (n / 10) ++ "." ++ toString (n % 10)

/-- JavaScript toFixed(1) on the extended values: Infinity.toFixed(1) is
the string Infinity, and NaN.toFixed(1) is the string NaN. -/
def JSQ.toFixed1 : JSQ → String
  | .fin x => ratToFixed1 x
  | .posInf => "Infinity"
  | .negInf => "-Infinity"
  | .nan => "NaN"

/-- JavaScript division diff / a followed by scaling with 100, for finite
operands: division by zero yields a signed infinity, and 0 / 0 yields
NaN, exactly as in JavaScript. -/
def jsPercent (diff a : ℚ) : JSQ :=
  if a ≠ 0 then .fin (diff / a * 100)
  else if 0 < diff then .posInf
  else if diff < 0 then .negInf
  else .nan

/-- Average of a list of rationals (the reduce-and-divide idiom used
throughout the source). -/
def listAvg (l : List ℚ) : ℚ := l.sum / (l.length : ℚ)

/-! ## Statistics engine (src/server.js lines 184-220, identical in
part_000 and part_001) -/

/-- The scoring tail shared by the trend definitions below: average both
halves, form the percent change (secondAvg - firstAvg) / firstAvg * 100
under JavaScript division semantics, and pick the sentence through the
JavaScript comparisons (so an unguarded division by zero surfaces as an
Infinity or NaN percentage in the rendered sentence). -/
def trendScore (firstHalf secondHalf : List ℚ) : String :=
  let firstAvg := listAvg firstHalf
  let secondAvg := listAvg secondHalf
  let percentChange := jsPercent (secondAvg - firstAvg) firstAvg
  if JSQ.lt percentChange.abs (.fin 5) then
    "The measurements have remained relatively stable recently."
  else if JSQ.lt (.fin 0) percentChange then
    "There is an increasing trend with a " ++ percentChange.toFixed1 ++
      "% rise in recent measurements."
  else
    "There is a decreasing trend with a " ++ percentChange.abs.toFixed1 ++
      "% drop in recent measurements."

/-- calculateTrend from src/server.js (identical in part_000 and
part_001).  values.slice(-10) is drop (length - 10), slice(0, 5) is
take 5 and slice(-5) is drop (length - 5); for fewer than 10 values the
two halves therefore overlap. -/
def calculateTrend (values : List ℚ) : String :=
  if values.length < 2 then "Insufficient data for trend analysis." else
  let recentValues := values.drop (values.length - 10)
  trendScore (recentValues.take 5)
    (recentValues.drop (recentValues.length - 5))

/-- The trend computation as the claim words it, with an even split of the
recent window when fewer than 10 values are available (first half versus
second half, no overlap).  Used only to exhibit where the claim and the
code part ways. -/
def claimTrendEvenSplit (values : List ℚ) : String :=
  if values.length < 2 then "Insufficient data for trend analysis." else
  let recent := values.drop (values.length - 10)
  if 10 ≤ recent.length then
    trendScore (recent.take 5) (recent.drop (recent.length - 5))
  else
    trendScore (recent.take (recent.length / 2))
      (recent.drop (recent.length / 2))

/-- The trend computation as amended: the recent window is the last
min(10, n) values, the first half is its first min(5, m) values and the
second half its last min(5, m) values, so the halves overlap when the
window holds fewer than 10 values and coincide when it holds at most 5. -/
def amendedTrendSpec (values : List ℚ) : String :=
  if values.length < 2 then "Insufficient data for trend analysis." else
  let recent := (values.reverse.take 10).reverse
  trendScore (recent.take (min 5 recent.length))
    ((recent.reverse.take (min 5 recent.length)).reverse)

/-- Trend description of getMetricInsights in src/unnamed/part_002: the
sum of successive differences over the last 10 values (a telescoping sum),
mapped to Increasing / Decreasing / Stable with no percentage. -/
def part002Trend (values : List ℚ) : String :=
  let recent := values.drop (values.length - 10)
  let t := (recent.zip recent.tail).foldl (fun acc p => acc + (p.2 - p.1)) (0 : ℚ)
  if 0 < t then "Increasing" else if t < 0 then "Decreasing" else "Stable"

/-- Statistics record produced by calculateStats in src/server.js. -/
structure ServerStats where
  min : ℚ
  max : ℚ
  avg : ℚ
  stdDev : ℝ

/-- calculateStats from src/server.js: zeros for the empty series,
otherwise min, max, average and the population standard deviation. -/
noncomputable def calculateStats (values : List ℚ) : ServerStats :=
  match values with
  | [] => ⟨0, 0, 0, 0⟩
  | x :: xs =>
    { min := xs.foldl Min.min x
      max := xs.foldl Max.max x
      avg := listAvg (x :: xs)
      stdDev := Real.sqrt
        ((((x :: xs).map (fun v => (v - listAvg (x :: xs)) ^ 2)).sum : ℚ) /
          ((x :: xs).length : ℚ)) }

/-! ## Narration generator (src/server.js lines 133-270) -/

/-- The three per-channel statistics the analysis route computes. -/
structure ChannelStats where
  voltage : ServerStats
  current : ServerStats
  power : ServerStats

/-- The performing-optimally sentence of getOverallAssessment. -/
def optimalSentence : String :=
  "Overall, the base station is performing optimally with good latency, minimal packet loss, and strong signal quality."

/-- getOverallAssessment from src/server.js: push high latency when the
voltage average exceeds 100, significant packet loss when the current
average exceeds 3, weak signal strength when the power average is below
-80; join the issues in that order, or emit the optimal sentence when
none triggered. -/
def getOverallAssessment (stats : ChannelStats) : String :=
  let issues : List String :=
    (if 100 < stats.voltage.avg then ["high latency"] else []) ++
    (if 3 < stats.current.avg then ["significant packet loss"] else []) ++
    (if stats.power.avg < -80 then ["weak signal strength"] else [])
  if issues.isEmpty then optimalSentence
  else
    "The base station requires attention due to " ++
      String.intercalate ", " issues ++
      ". Consider investigating these issues to improve network performance."

/-! ## Client health-assessment block (ReportEditor.js) -/

/-- The VSWR ternary of the System Health Assessment block (identical in
both ReportEditor variants): warn above a 1.5 average, accept otherwise. -/
def vswrHealthLine (vswrAvg : ℚ) : String :=
  if 1.5 < vswrAvg then "⚠️ High VSWR detected. Check antenna system."
  else "✅ VSWR within acceptable range."

/-- The return-loss ternary of the health-assessment block. -/
def returnLossHealthLine (rlAvg : ℚ) : String :=
  if rlAvg < -20 then "✅ Good impedance matching."
  else "⚠️ Poor return loss. Check RF system."

/-- The temperature ternary of the health-assessment block. -/
def temperatureHealthLine (tempMax : ℚ) : String :=
  if 50 < tempMax then "⚠️ High temperature detected. Check cooling system."
  else "✅ Temperature within normal range."

/-- The voltage ternary of the health-assessment block (second variant
only). -/
def voltageHealthLine (voltAvg : ℚ) : String :=
  if voltAvg < 200 then "⚠️ Low voltage detected. Check power supply."
  else "✅ Voltage within normal range."

/-- The current ternary of the health-assessment block (second variant
only). -/
def currentHealthLine (currAvg : ℚ) : String :=
  if 10 < currAvg then "⚠️ High current detected. Check for shorts."
  else "✅ Current within normal range."

/-- The five-line System Health Assessment block of generateAutoNarration
in the second ReportEditor variant (lines 740-745). -/
def healthAssessmentBlock (vswrAvg rlAvg tempMax voltAvg currAvg : ℚ) :
    List String :=
  [ vswrHealthLine vswrAvg, returnLossHealthLine rlAvg,
    temperatureHealthLine tempMax, voltageHealthLine voltAvg,
    currentHealthLine currAvg ]

/-- The three-line health-assessment block of generateAutoNarrations in
the first ReportEditor variant (lines 421-426). -/
def healthAssessmentBlockV1 (vswrAvg rlAvg tempMax : ℚ) : List String :=
  [ vswrHealthLine vswrAvg, returnLossHealthLine rlAvg,
    temperatureHealthLine tempMax ]

/-! ## Chart insight utility (src/client/src/utils/chartUtils.js) -/

/-- Insight record of getMetricInsights in chartUtils.js.  The numeric
fields are Option-valued: none marks the non-finite JavaScript value the
code produces on the empty series (Math.max of nothing is -Infinity,
Math.min of nothing is Infinity, and 0 / 0 is NaN); the avg field is
rendered by the code with toFixed(2), a formatting step the model leaves
aside.  The time fields are none when the index lookup lands outside the
labels array (labels[-1] is undefined). -/
structure ChartInsights where
  max : Option ℚ
  min : Option ℚ
  avg : Option ℚ
  maxTime : Option String
  minTime : Option String
deriving DecidableEq

/-- JavaScript Math.max over a spread array: -Infinity (none) on the empty
array, the maximum otherwise. -/
def jsMaxList (values : List ℚ) : Option ℚ :=
  values.foldl (fun acc v =>
    match acc with
    | none => some v
    | some a => some (Max.max a v)) none

/-- JavaScript Math.min over a spread array: Infinity (none) on the empty
array, the minimum otherwise. -/
def jsMinList (values : List ℚ) : Option ℚ :=
  values.foldl (fun acc v =>
    match acc with
    | none => some v
    | some a => some (Min.min a v)) none

/-- getMetricInsights from chartUtils.js: no guard for the empty series,
so max, min and average are computed directly as in the source. -/
def chartGetMetricInsights (values : List ℚ) (labels : List String) :
    ChartInsights :=
  let mx := jsMaxList values
  let mn := jsMinList values
  let avg : Option ℚ :=
    if values.length = 0 then none
    else some (values.sum / (values.length : ℚ))
  { max := mx
    min := mn
    avg := avg
    maxTime := match mx with
      | none => none
      | some m => labels.get? (values.indexOf m)
    minTime := match mn with
      | none => none
      | some m => labels.get? (values.indexOf m) }

/-! ## Metric derivation (VSWR and return loss) -/

noncomputable section

/-- The VSWR formula as the specification words it: rho is
sqrt(reflected / forward); the result is (1 + rho) / (1 - rho) when both
powers are positive and 1 in every other case. -/
def vswrSpec (forward reflected : ℝ) : ℝ :=
  if 0 < forward ∧ 0 < reflected then
    (1 + Real.sqrt (reflected / forward)) / (1 - Real.sqrt (reflected / forward))
  else 1

/-- The CASE expression computing VSWR in the /api/data query of
part_000 and part_001 (the route additionally wraps it in ROUND(.., 2)
for display). -/
def sqlVSWRCase (a1 a2 : ℝ) : ℝ :=
  if 0 < a1 ∧ 0 < a2 then
    (1 + Real.sqrt (a2 / a1)) / (1 - Real.sqrt (a2 / a1))
  else 1

/-- The per-row VSWR computation of processedData.vswr in the first
ReportEditor variant (lines 29-35): it returns 0, not 1, when either
power is nonpositive. -/
def clientRowVSWR (forward reflected : ℝ) : ℝ :=
  if forward ≤ 0 ∨ reflected ≤ 0 then 0
  else (1 + Real.sqrt (reflected / forward)) / (1 - Real.sqrt (reflected / forward))

/-- calculateVSWR from the second ReportEditor variant (lines 526-530).
none models a non-finite JavaScript result: Math.sqrt of a negative ratio
is NaN, and a ratio of exactly 1 makes the denominator zero, producing
Infinity.  Note the guard checks only the forward power. -/
def calculateVSWR (forward reflected : ℝ) : Option ℝ :=
  if forward ≤ 0 then some 1
  else if reflected / forward < 0 then none
  else if Real.sqrt (reflected / forward) = 1 then none
  else some ((1 + Real.sqrt (reflected / forward)) /
             (1 - Real.sqrt (reflected / forward)))

/-- calculateReturnLoss from the second ReportEditor variant (lines
532-535): -20 * log10(sqrt(reflected / forward)) when both powers are
positive, 0 otherwise. -/
def calculateReturnLoss (forward reflected : ℝ) : ℝ :=
  if forward ≤ 0 ∨ reflected ≤ 0 then 0
  else -20 * Real.logb 10 (Real.sqrt (reflected / forward))

end

/-! ## Time-window resolution -/

/-- A resolved query window, in milliseconds since the epoch. -/
structure TimeWindow where
  startTime : ℤ
  endTime : ℤ
deriving DecidableEq

/-- The time threshold of the /api/data route in src/server.js, computed
from the latest timestamp present for the node: the switch recognises 7d
and 30d and treats every other token, 24h included, as 24 hours. -/
def serverThreshold (timePeriod : String) (latest : ℤ) : ℤ :=
  if timePeriod = "7d" then latest - 7 * 86400000
  else if timePeriod = "30d" then latest - 30 * 86400000
  else latest - 86400000

/-- The row selection the src/server.js route performs: keep the rows at
or after the threshold (the query has no upper bound on time). -/
def serverSelectRows (timePeriod : String) (latest : ℤ) (times : List ℤ) :
    List ℤ :=
  times.filter (fun t => serverThreshold timePeriod latest ≤ t)

/-- The window the src/server.js route effectively resolves: none when
the node has no data at all (the route returns an empty row set), else
threshold-to-latest.  The route never rejects a token. -/
def serverRouteWindow (timePeriod : String) (latest : Option ℤ) :
    Option TimeWindow :=
  match latest with
  | none => none
  | some t => some ⟨serverThreshold timePeriod t, t⟩

/-- setHours(23, 59, 59, 999) on a timestamp, in the UTC day model: move
to the last millisecond of the calendar day containing it. -/
def endOfDayUTC (t : ℤ) : ℤ := t.fdiv 86400000 * 86400000 + 86399999

/-- The time-window resolution of the /api/data route in part_000.  The
startDate and endDate query parameters are modelled as
Option (Option Int): the outer layer is presence, the inner layer the
result of new Date parsing (none is an invalid date).  For the custom
branch the end is advanced to the end of its calendar day before the
range check; every non-custom token is anchored on the now argument, the
wall clock of the caller, and unrecognised tokens are rejected. -/
def part000Resolve (timePeriod : String) (startDate endDate : Option (Option ℤ))
    (now : ℤ) : Except String TimeWindow :=
  if timePeriod = "custom" ∧ startDate.isSome ∧ endDate.isSome then
    match startDate, endDate with
    | some (some s), some (some e0) =>
      let e := endOfDayUTC e0
      if e < s then .error "End date must be after start date"
      else .ok ⟨s, e⟩
    | _, _ => .error "Invalid date format"
  else
    if timePeriod = "24h" then .ok ⟨now - 86400000, now⟩
    else if timePeriod = "7d" then .ok ⟨now - 7 * 86400000, now⟩
    else if timePeriod = "30d" then .ok ⟨now - 30 * 86400000, now⟩
    else .error "Invalid time period"

/-- The time-filter switch of the /api/data route in part_001: recognises
1h, 24h, 7d and 30d, anchored on the wall clock, and rejects everything
else with a 400 error. -/
def part001Resolve (timePeriod : String) (now : ℤ) : Except String ℤ :=
  if timePeriod = "1h" then .ok (now - 3600000)
  else if timePeriod = "24h" then .ok (now - 86400000)
  else if timePeriod = "7d" then .ok (now - 7 * 86400000)
  else if timePeriod = "30d" then .ok (now - 30 * 86400000)
  else .error "Invalid time period. Must be one of: 1h, 24h, 7d, 30d"

/-! ## Helper lemmas -/

lemma reverse_take_reverse_eq (l : List ℚ) (k : ℕ) :
    (l.reverse.take k).reverse = l.drop (l.length - k) :=
  (List.rtake_eq_reverse_take_reverse l k).symm

/-! ## Claim theorems -/

/-- C3: the trend classification takes the last 10 values (or all values
if fewer) and compares half averages with a 5 percent stability band; the
claim describes the split of a short window as even, but the code takes
the first 5 and the last 5 of the window, which overlap when fewer than
10 values are available.  This theorem proves the amended description:
the halves are the first min(5, m) and last min(5, m) values of the
recent window, the cited 10-value example still yields the increasing
label with a 100.0 percent rise, and the part_002 insight variant (which
sums successive differences and carries no percentage) labels the same
example Increasing. -/
theorem c3_trend_classification :
    (∀ values : List ℚ, calculateTrend values = amendedTrendSpec values) ∧
    calculateTrend [1, 1, 1, 1, 1, 2, 2, 2, 2, 2] =
      "There is an increasing trend with a 100.0% rise in recent measurements." ∧
    part002Trend [1, 1, 1, 1, 1, 2, 2, 2, 2, 2] = "Increasing" := by
  refine ⟨?_, ?_, ?_⟩
  · intro values
    simp only [calculateTrend, amendedTrendSpec, reverse_take_reverse_eq]
    by_cases h : values.length < 2
    · simp [h]
    · simp only [if_neg h]
      have h5 : (values.drop (values.length - 10)).take
            (min 5 (values.drop (values.length - 10)).length) =
          (values.drop (values.length - 10)).take 5 :=
        List.take_eq_take.mpr (by omega)
      have hdrop : (values.drop (values.length - 10)).length -
            min 5 (values.drop (values.length - 10)).length =
          (values.drop (values.length - 10)).length - 5 := by omega
      rw [h5, hdrop]
  · unfold calculateTrend trendScore
    norm_num [listAvg, jsPercent, JSQ.lt, JSQ.abs, JSQ.toFixed1, ratToFixed1]
    rfl
  · unfold part002Trend
    norm_num

/-- C3 counterexample: on the two-value series [1, 2] the code sees the
identical halves [1, 2] and [1, 2] (slice(0, 5) and slice(-5) overlap)
and reports stability, while the even split the claim describes compares
[1] against [2] and reports a 100.0 percent increase. -/
theorem c3_counterexample :
    calculateTrend [1, 2] =
      "The measurements have remained relatively stable recently." ∧
    claimTrendEvenSplit [1, 2] =
      "There is an increasing trend with a 100.0% rise in recent measurements." ∧
    ("The measurements have remained relatively stable recently." : String) ≠
      "There is an increasing trend with a 100.0% rise in recent measurements." := by
  refine ⟨?_, ?_, by decide⟩
  · unfold calculateTrend trendScore
    norm_num [listAvg, jsPercent, JSQ.lt, JSQ.abs]
  · unfold claimTrendEvenSplit trendScore
    norm_num [listAvg, jsPercent, JSQ.lt, JSQ.abs, JSQ.toFixed1, ratToFixed1]
    rfl

/-- C5: the claim says the percent-change division is guarded when the
first-half average is 0; the code has no such guard.  On the series
[0, 0, 0, 0, 0, 5, 5, 5, 5, 5] the first-half average is 0, JavaScript
evaluates 5 / 0 * 100 to Infinity, and the rendered trend sentence
carries an Infinity percentage instead of a stable or insufficient-data
label. -/
theorem c5_unguarded_division :
    calculateTrend [0, 0, 0, 0, 0, 5, 5, 5, 5, 5] =
      "There is an increasing trend with a Infinity% rise in recent measurements." := by
  unfold calculateTrend trendScore
  norm_num [listAvg, jsPercent, JSQ.lt, JSQ.abs, JSQ.toFixed1]
  rfl

/-- C6 amended: the server summarization is guarded on the empty series
(calculateStats returns all zeros and calculateTrend the
insufficient-data sentence), but getMetricInsights in chartUtils.js is
not: on the empty series its max is -Infinity, its min is Infinity and
its average is NaN (all modelled by none). -/
theorem c6_empty_summaries :
    calculateStats [] = ⟨0, 0, 0, 0⟩ ∧
    calculateTrend [] = "Insufficient data for trend analysis." ∧
    chartGetMetricInsights [] [] = ⟨none, none, none, none, none⟩ :=
  ⟨rfl, rfl, rfl⟩

/-- C6 counterexample: chartUtils getMetricInsights on the empty series
does not return zero fields; its max is the non-finite -Infinity (none in
the model) and its average is NaN rather than 0. -/
theorem c6_counterexample :
    (chartGetMetricInsights [] []).max = none ∧
    (chartGetMetricInsights [] []).avg ≠ some 0 :=
  ⟨rfl, by decide⟩

lemma vswr_sentences_notin_rest (rl t v c : ℚ) :
    "⚠️ High VSWR detected. Check antenna system." ∉
      [returnLossHealthLine rl, temperatureHealthLine t,
       voltageHealthLine v, currentHealthLine c] ∧
    "✅ VSWR within acceptable range." ∉
      [returnLossHealthLine rl, temperatureHealthLine t,
       voltageHealthLine v, currentHealthLine c] := by
  by_cases h1 : rl < -20 <;> by_cases h2 : (50 : ℚ) < t <;>
    by_cases h3 : v < 200 <;> by_cases h4 : (10 : ℚ) < c <;>
    simp only [returnLossHealthLine, temperatureHealthLine, voltageHealthLine,
      currentHealthLine, h1, h2, h3, h4, if_true, if_false, ite_true,
      ite_false] <;> decide

lemma vswr_sentences_notin_restV1 (rl t : ℚ) :
    "⚠️ High VSWR detected. Check antenna system." ∉
      [returnLossHealthLine rl, temperatureHealthLine t] ∧
    "✅ VSWR within acceptable range." ∉
      [returnLossHealthLine rl, temperatureHealthLine t] := by
  by_cases h1 : rl < -20 <;> by_cases h2 : (50 : ℚ) < t <;>
    simp only [returnLossHealthLine, temperatureHealthLine, h1, h2, if_true,
      if_false, ite_true, ite_false] <;> decide

lemma vswrHealthLine_eq_warn_iff (q : ℚ) :
    vswrHealthLine q = "⚠️ High VSWR detected. Check antenna system." ↔
      1.5 < q := by
  unfold vswrHealthLine
  by_cases h : (1.5 : ℚ) < q
  · rw [if_pos h]
    exact iff_of_true rfl h
  · rw [if_neg h]
    exact iff_of_false (by decide) h

lemma vswrHealthLine_eq_accept_iff (q : ℚ) :
    vswrHealthLine q = "✅ VSWR within acceptable range." ↔ ¬ 1.5 < q := by
  unfold vswrHealthLine
  by_cases h : (1.5 : ℚ) < q
  · rw [if_pos h]
    exact iff_of_false (by decide) (not_not_intro h)
  · rw [if_neg h]
    exact iff_of_true rfl h

lemma mem_cons_of_notin_rest {s : String} {rest : List String} (a : String)
    (h : s ∉ rest) : s ∈ a :: rest ↔ s = a := by
  simp only [List.mem_cons]
  exact or_iff_left (fun hr => h hr)

/-- C9: the generated health-assessment block contains the high-VSWR
warning sentence exactly when the VSWR average exceeds 1.5 and the
acceptable-range sentence exactly otherwise, in both ReportEditor
variants; a 2.0 average triggers the warning and a 1.2 average does not. -/
theorem c9_vswr_health_sentence :
    (∀ q rl t v c : ℚ,
      ("⚠️ High VSWR detected. Check antenna system." ∈
          healthAssessmentBlock q rl t v c ↔ 1.5 < q) ∧
      ("✅ VSWR within acceptable range." ∈
          healthAssessmentBlock q rl t v c ↔ ¬ 1.5 < q)) ∧
    (∀ q rl t : ℚ,
      ("⚠️ High VSWR detected. Check antenna system." ∈
          healthAssessmentBlockV1 q rl t ↔ 1.5 < q) ∧
      ("✅ VSWR within acceptable range." ∈
          healthAssessmentBlockV1 q rl t ↔ ¬ 1.5 < q)) ∧
    vswrHealthLine 2 = "⚠️ High VSWR detected. Check antenna system." ∧
    vswrHealthLine 1.2 = "✅ VSWR within acceptable range." := by
  refine ⟨fun q rl t v c => ?_, fun q rl t => ?_, ?_, ?_⟩
  · obtain ⟨hw, ha⟩ := vswr_sentences_notin_rest rl t v c
    exact ⟨((mem_cons_of_notin_rest _ hw).trans eq_comm).trans
        (vswrHealthLine_eq_warn_iff q),
      ((mem_cons_of_notin_rest _ ha).trans eq_comm).trans
        (vswrHealthLine_eq_accept_iff q)⟩
  · obtain ⟨hw, ha⟩ := vswr_sentences_notin_restV1 rl t
    exact ⟨((mem_cons_of_notin_rest _ hw).trans eq_comm).trans
        (vswrHealthLine_eq_warn_iff q),
      ((mem_cons_of_notin_rest _ ha).trans eq_comm).trans
        (vswrHealthLine_eq_accept_iff q)⟩
  · rw [vswrHealthLine, if_pos (by norm_num : (1.5 : ℚ) < 2)]
  · rw [vswrHealthLine, if_neg (by norm_num : ¬ (1.5 : ℚ) < 1.2)]

set_option maxRecDepth 4000 in
/-- C10: the overall assessment is the performing-optimally sentence
exactly when the voltage average is at most 100, the current average at
most 3 and the power average at least -80; otherwise it lists exactly the
triggered issues, high latency then significant packet loss then weak
signal strength, joined in that fixed order. -/
theorem c10_overall_assessment :
    ∀ s : ChannelStats,
      (getOverallAssessment s = optimalSentence ↔
        s.voltage.avg ≤ 100 ∧ s.current.avg ≤ 3 ∧ -80 ≤ s.power.avg) ∧
      (¬ (s.voltage.avg ≤ 100 ∧ s.current.avg ≤ 3 ∧ -80 ≤ s.power.avg) →
        getOverallAssessment s =
          "The base station requires attention due to " ++
            String.intercalate ", "
              ((if 100 < s.voltage.avg then ["high latency"] else []) ++
               (if 3 < s.current.avg then ["significant packet loss"] else []) ++
               (if s.power.avg < -80 then ["weak signal strength"] else [])) ++
            ". Consider investigating these issues to improve network performance.") := by
  intro s
  by_cases h1 : 100 < s.voltage.avg <;> by_cases h2 : 3 < s.current.avg <;>
    by_cases h3 : s.power.avg < -80
  · refine ⟨iff_of_false ?_ (fun hc => absurd h1 (not_lt.mpr hc.1)),
      fun hne => ?_⟩ <;>
      simp only [getOverallAssessment, optimalSentence, h1, h2, h3, if_true,
        ite_true, List.cons_append, List.nil_append, List.append_nil,
        List.isEmpty_cons] <;> decide
  · refine ⟨iff_of_false ?_ (fun hc => absurd h1 (not_lt.mpr hc.1)),
      fun hne => ?_⟩ <;>
      simp only [getOverallAssessment, optimalSentence, h1, h2, h3, if_true,
        if_false, ite_true, ite_false, List.cons_append, List.nil_append,
        List.append_nil, List.isEmpty_cons] <;> decide
  · refine ⟨iff_of_false ?_ (fun hc => absurd h1 (not_lt.mpr hc.1)),
      fun hne => ?_⟩ <;>
      simp only [getOverallAssessment, optimalSentence, h1, h2, h3, if_true,
        if_false, ite_true, ite_false, List.cons_append, List.nil_append,
        List.append_nil, List.isEmpty_cons] <;> decide
  · refine ⟨iff_of_false ?_ (fun hc => absurd h1 (not_lt.mpr hc.1)),
      fun hne => ?_⟩ <;>
      simp only [getOverallAssessment, optimalSentence, h1, h2, h3, if_true,
        if_false, ite_true, ite_false, List.cons_append, List.nil_append,
        List.append_nil, List.isEmpty_cons] <;> decide
  · refine ⟨iff_of_false ?_ (fun hc => absurd h2 (not_lt.mpr hc.2.1)),
      fun hne => ?_⟩ <;>
      simp only [getOverallAssessment, optimalSentence, h1, h2, h3, if_true,
        if_false, ite_true, ite_false, List.cons_append, List.nil_append,
        List.append_nil, List.isEmpty_cons] <;> decide
  · refine ⟨iff_of_false ?_ (fun hc => absurd h2 (not_lt.mpr hc.2.1)),
      fun hne => ?_⟩ <;>
      simp only [getOverallAssessment, optimalSentence, h1, h2, h3, if_true,
        if_false, ite_true, ite_false, List.cons_append, List.nil_append,
        List.append_nil, List.isEmpty_cons] <;> decide
  · refine ⟨iff_of_false ?_ (fun hc => absurd h3 (not_lt.mpr hc.2.2)),
      fun hne => ?_⟩ <;>
      simp only [getOverallAssessment, optimalSentence, h1, h2, h3, if_true,
        if_false, ite_true, ite_false, List.cons_append, List.nil_append,
        List.append_nil, List.isEmpty_cons] <;> decide
  · refine ⟨iff_of_true ?_ ⟨not_lt.mp h1, not_lt.mp h2, not_lt.mp h3⟩,
      fun hne => absurd ⟨not_lt.mp h1, not_lt.mp h2, not_lt.mp h3⟩ hne⟩
    simp only [getOverallAssessment, optimalSentence, h1, h2, h3, if_false,
      ite_false, List.nil_append, List.append_nil, List.isEmpty_nil, if_true,
      ite_true]

/-- C10 witness: with a voltage average of 150 (and unremarkable current
and power averages) the optimality condition fails and the assessment
lists exactly the high-latency issue. -/
theorem c10_overall_assessment_witness :
    ¬ ((150 : ℚ) ≤ 100 ∧ (0 : ℚ) ≤ 3 ∧ (-80 : ℚ) ≤ 0) ∧
    getOverallAssessment ⟨⟨0, 0, 150, 0⟩, ⟨0, 0, 0, 0⟩, ⟨0, 0, 0, 0⟩⟩ =
      "The base station requires attention due to high latency. Consider investigating these issues to improve network performance." := by
  have h : ¬ ((150 : ℚ) ≤ 100 ∧ (0 : ℚ) ≤ 3 ∧ (-80 : ℚ) ≤ 0) := by
    norm_num
  refine ⟨h, ?_⟩
  have h2 := (c10_overall_assessment
    ⟨⟨0, 0, 150, 0⟩, ⟨0, 0, 0, 0⟩, ⟨0, 0, 0, 0⟩⟩).2 h
  rw [h2]
  norm_num
  rfl

lemma calculateVSWR_eq_spec {f r : ℝ} (hf : 0 < f) (hr : 0 < r)
    (hne : r ≠ f) : calculateVSWR f r = some (vswrSpec f r) := by
  have hdiv : 0 < r / f := div_pos hr hf
  have hsq : Real.sqrt (r / f) ≠ 1 := by
    intro h
    exact hne ((div_eq_one_iff_eq (ne_of_gt hf)).mp (Real.sqrt_eq_one.mp h))
  unfold calculateVSWR vswrSpec
  rw [if_neg (not_le.mpr hf), if_neg (not_lt.mpr hdiv.le), if_neg hsq,
    if_pos ⟨hf, hr⟩]

lemma sqrt_ratio_lt_one {f r : ℝ} (hr : 0 < r) (hrf : r < f) :
    Real.sqrt (r / f) < 1 := by
  have hf : 0 < f := hr.trans hrf
  have hlt1 : r / f < 1 := (div_lt_one hf).mpr hrf
  exact (Real.sqrt_lt' one_pos).mpr (by rwa [one_pow])

lemma vswrSpec_ge_one {f r : ℝ} (hr : 0 < r) (hrf : r < f) :
    1 ≤ vswrSpec f r := by
  have hf : 0 < f := hr.trans hrf
  have hdiv : 0 < r / f := div_pos hr hf
  have hs0 : 0 < Real.sqrt (r / f) := Real.sqrt_pos.mpr hdiv
  have hs1 : Real.sqrt (r / f) < 1 := sqrt_ratio_lt_one hr hrf
  unfold vswrSpec
  rw [if_pos ⟨hf, hr⟩, le_div_iff₀ (by linarith)]
  linarith

lemma calculateReturnLoss_nonneg {f r : ℝ} (hr : 0 < r) (hrf : r < f) :
    0 ≤ calculateReturnLoss f r := by
  have hf : 0 < f := hr.trans hrf
  unfold calculateReturnLoss
  rw [if_neg (by push_neg; exact ⟨hf, hr⟩)]
  have hlog : Real.logb 10 (Real.sqrt (r / f)) ≤ 0 :=
    Real.logb_nonpos (by norm_num) (Real.sqrt_nonneg _)
      (sqrt_ratio_lt_one hr hrf).le
  linarith

/-- C1 counterexample: the per-row client derivation processedData.vswr
returns 0 when the forward power is 0, where the claim requires 1. -/
theorem c1_counterexample :
    clientRowVSWR 0 1 = 0 ∧ (0 : ℝ) ≠ 1 := by
  constructor
  · unfold clientRowVSWR
    rw [if_pos (Or.inl le_rfl)]
  · norm_num

/-- C1 amended: the SQL CASE derivation matches the claimed formula
exactly; the client per-row derivation (processedData.vswr in the first
ReportEditor variant) computes the same formula when both powers are
positive but returns 0, not 1, in every other case; the calculateVSWR
helper of the second variant returns 1 whenever the forward power is
nonpositive, computes the formula when both powers are positive and
differ, and produces a non-finite value (NaN) when the forward power is
positive and the reflected power negative. -/
theorem c1_vswr_derivation :
    (∀ f r : ℝ, sqlVSWRCase f r = vswrSpec f r) ∧
    (∀ f r : ℝ, 0 < f → 0 < r → clientRowVSWR f r = vswrSpec f r) ∧
    (∀ f r : ℝ, f ≤ 0 ∨ r ≤ 0 → clientRowVSWR f r = 0) ∧
    (∀ f r : ℝ, f ≤ 0 → calculateVSWR f r = some 1) ∧
    (∀ f r : ℝ, 0 < f → 0 < r → r ≠ f →
      calculateVSWR f r = some (vswrSpec f r)) ∧
    (∀ f r : ℝ, 0 < f → r < 0 → calculateVSWR f r = none) := by
  refine ⟨fun f r => rfl, fun f r hf hr => ?_, fun f r h => ?_,
    fun f r hf => ?_, fun f r hf hr hne => calculateVSWR_eq_spec hf hr hne,
    fun f r hf hr => ?_⟩
  · unfold clientRowVSWR vswrSpec
    rw [if_neg (by push_neg; exact ⟨hf, hr⟩), if_pos ⟨hf, hr⟩]
  · unfold clientRowVSWR
    rw [if_pos h]
  · unfold calculateVSWR
    rw [if_pos hf]
  · unfold calculateVSWR
    rw [if_neg (not_le.mpr hf), if_pos (div_neg_of_neg_of_pos hr hf)]

/-- C1 witness: at forward power 4 and reflected power 1 the hypotheses
hold and the derivation evaluates to the claimed formula value 3
(rho = sqrt(1/4) = 1/2). -/
theorem c1_vswr_derivation_witness :
    (0 : ℝ) < 4 ∧ (0 : ℝ) < 1 ∧ (1 : ℝ) ≠ 4 ∧
    calculateVSWR 4 1 = some (vswrSpec 4 1) ∧ vswrSpec 4 1 = 3 := by
  have hs : Real.sqrt ((1 : ℝ) / 4) = 1 / 2 := by
    rw [show (1 / 4 : ℝ) = (1 / 2) ^ 2 by norm_num,
      Real.sqrt_sq (by norm_num)]
  refine ⟨by norm_num, by norm_num, by norm_num,
    c1_vswr_derivation.2.2.2.2.1 4 1 (by norm_num) (by norm_num)
      (by norm_num), ?_⟩
  unfold vswrSpec
  rw [if_pos ⟨by norm_num, by norm_num⟩, hs]
  norm_num

/-- C4 counterexample: at forward power 100 and reflected power 1 the
derived return loss is +20 dB, not a nonpositive value: the code computes
-20 * log10(sqrt(reflected / forward)), which is positive whenever the
reflected power is below the forward power. -/
theorem c4_counterexample :
    calculateReturnLoss 100 1 = 20 ∧ ¬ ((20 : ℝ) ≤ 0) := by
  constructor
  · unfold calculateReturnLoss
    rw [if_neg (by push_neg; exact ⟨by norm_num, by norm_num⟩)]
    have hs : Real.sqrt ((1 : ℝ) / 100) = 1 / 10 := by
      rw [show (1 / 100 : ℝ) = (1 / 10) ^ 2 by norm_num,
        Real.sqrt_sq (by norm_num)]
    rw [hs, show (1 / 10 : ℝ) = (10 : ℝ)⁻¹ by norm_num, Real.logb_inv,
      Real.logb_self_eq_one (by norm_num)]
    norm_num
  · norm_num

/-- C4 amended: for positive powers with the reflected power below the
forward power, the derived VSWR is at least 1 and the derived return loss
is at least 0 (the sign convention of the code makes a good match a
positive dB value, not a nonpositive one). -/
theorem c4_vswr_return_loss_bounds :
    ∀ f r : ℝ, 0 < r → r < f →
      calculateVSWR f r = some (vswrSpec f r) ∧ 1 ≤ vswrSpec f r ∧
      0 ≤ calculateReturnLoss f r := by
  intro f r hr hrf
  exact ⟨calculateVSWR_eq_spec (hr.trans hrf) hr (ne_of_lt hrf),
    vswrSpec_ge_one hr hrf, calculateReturnLoss_nonneg hr hrf⟩

/-- C4 witness: the bounds hold at forward power 100 and reflected
power 1. -/
theorem c4_vswr_return_loss_bounds_witness :
    (0 : ℝ) < 1 ∧ (1 : ℝ) < 100 ∧
    (calculateVSWR 100 1 = some (vswrSpec 100 1) ∧ 1 ≤ vswrSpec 100 1 ∧
      0 ≤ calculateReturnLoss 100 1) :=
  ⟨by norm_num, by norm_num,
    c4_vswr_return_loss_bounds 100 1 (by norm_num) (by norm_num)⟩

lemma serverThreshold_default (tp : String) (T : ℤ) (h7 : tp ≠ "7d")
    (h30 : tp ≠ "30d") : serverThreshold tp T = T - 86400000 := by
  unfold serverThreshold
  rw [if_neg h7, if_neg h30]

lemma le_endOfDayUTC_of_fdiv_eq {e t : ℤ}
    (h : t.fdiv 86400000 = e.fdiv 86400000) : t ≤ endOfDayUTC e := by
  have h1 : 86400000 * t.fdiv 86400000 + t.fmod 86400000 = t :=
    Int.fdiv_add_fmod t 86400000
  have h2 : t.fmod 86400000 < 86400000 :=
    Int.fmod_lt_of_pos t (by norm_num)
  have h3 : 0 ≤ t.fmod 86400000 := Int.fmod_nonneg' t (by norm_num)
  unfold endOfDayUTC
  rw [← h]
  omega

lemma endOfDayUTC_fdiv (e : ℤ) :
    (endOfDayUTC e).fdiv 86400000 = e.fdiv 86400000 := by
  unfold endOfDayUTC
  rw [Int.fdiv_eq_ediv _ (by norm_num), add_comm,
    Int.add_mul_ediv_right 86399999 (e.fdiv 86400000)
      (by norm_num : (86400000 : ℤ) ≠ 0)]
  norm_num

/-- C2: the main server (src/server.js) anchors the non-custom window on
the latest timestamp present for the node: the threshold is latest minus
the token duration for 24h, 7d and 30d, and on a row set bounded by the
latest timestamp the selection is exactly the rows in
[latest - duration, latest].  The part_000 variant, however, anchors on
the wall clock of the caller: its resolver does not consult the data at
all, so with wall-clock 1736467200000 it returns the window ending at
1736467200000 whatever the latest data timestamp is — the code slip the
claim rules out. -/
theorem c2_window_anchoring :
    (∀ T : ℤ, serverThreshold "24h" T = T - 86400000 ∧
      serverThreshold "7d" T = T - 7 * 86400000 ∧
      serverThreshold "30d" T = T - 30 * 86400000) ∧
    (∀ (T : ℤ) (rows : List ℤ), (∀ t ∈ rows, t ≤ T) →
      serverSelectRows "24h" T rows =
        rows.filter (fun t => decide (T - 86400000 ≤ t ∧ t ≤ T))) ∧
    part000Resolve "24h" none none 1736467200000 =
      .ok ⟨1736380800000, 1736467200000⟩ := by
  refine ⟨fun T => ⟨?_, ?_, ?_⟩, fun T rows h => ?_, rfl⟩
  · exact serverThreshold_default _ _ (by decide) (by decide)
  · unfold serverThreshold
    rw [if_pos rfl]
  · unfold serverThreshold
    rw [if_neg (by decide), if_pos rfl]
  · unfold serverSelectRows
    rw [serverThreshold_default _ _ (by decide) (by decide)]
    refine List.filter_congr fun t ht => ?_
    have htT := h t ht
    rw [decide_eq_decide]
    exact ⟨fun h2 => ⟨h2, htT⟩, fun h2 => h2.1⟩

/-- C2 witness: with latest timestamp 0 the 24h selection keeps exactly
the rows within the last day before it. -/
theorem c2_window_anchoring_witness :
    (∀ t ∈ ([-100000000, -50, 0] : List ℤ), t ≤ (0 : ℤ)) ∧
    serverSelectRows "24h" 0 [-100000000, -50, 0] = [-50, 0] := by
  refine ⟨by decide, ?_⟩
  rw [c2_window_anchoring.2.1 0 [-100000000, -50, 0] (by decide)]
  decide

/-- C7 counterexample: the src/server.js route does not reject the
unrecognised token bogus; its switch falls through to the 24h default and
silently resolves the 24-hour window. -/
theorem c7_counterexample :
    serverRouteWindow "bogus" (some 0) = some ⟨-86400000, 0⟩ := by decide

/-- C7 amended: the part_001 resolver rejects every token outside 1h,
24h, 7d, 30d with its invalid-period error, and the part_000 resolver
rejects every token outside custom, 24h, 7d, 30d; but the src/server.js
resolver treats every token other than 7d and 30d, unrecognised tokens
included, as 24h and resolves the default window. -/
theorem c7_invalid_period :
    (∀ (tp : String) (now : ℤ),
      tp ∉ (["1h", "24h", "7d", "30d"] : List String) →
      part001Resolve tp now =
        .error "Invalid time period. Must be one of: 1h, 24h, 7d, 30d") ∧
    (∀ (tp : String) (sd ed : Option (Option ℤ)) (now : ℤ),
      tp ∉ (["custom", "24h", "7d", "30d"] : List String) →
      part000Resolve tp sd ed now = .error "Invalid time period") ∧
    (∀ (tp : String) (T : ℤ), tp ≠ "7d" → tp ≠ "30d" →
      serverRouteWindow tp (some T) = some ⟨T - 86400000, T⟩) := by
  refine ⟨fun tp now h => ?_, fun tp sd ed now h => ?_,
    fun tp T h7 h30 => ?_⟩
  · simp only [List.mem_cons, List.not_mem_nil, or_false, not_or] at h
    obtain ⟨h1, h24, h7d, h30⟩ := h
    unfold part001Resolve
    rw [if_neg h1, if_neg h24, if_neg h7d, if_neg h30]
  · simp only [List.mem_cons, List.not_mem_nil, or_false, not_or] at h
    obtain ⟨hc, h24, h7d, h30⟩ := h
    unfold part000Resolve
    rw [if_neg (fun hAnd => hc hAnd.1), if_neg h24, if_neg h7d, if_neg h30]
  · have hrw : serverRouteWindow tp (some T) =
        some ⟨serverThreshold tp T, T⟩ := rfl
    rw [hrw, serverThreshold_default tp T h7 h30]

/-- C7 witness: the three resolvers evaluated at the unrecognised token
bogus. -/
theorem c7_invalid_period_witness :
    ("bogus" : String) ∉ (["1h", "24h", "7d", "30d"] : List String) ∧
    ("bogus" : String) ∉ (["custom", "24h", "7d", "30d"] : List String) ∧
    part001Resolve "bogus" 0 =
      .error "Invalid time period. Must be one of: 1h, 24h, 7d, 30d" ∧
    part000Resolve "bogus" none none 0 = .error "Invalid time period" ∧
    serverRouteWindow "bogus" (some 5) = some ⟨5 - 86400000, 5⟩ :=
  ⟨by decide, by decide, c7_invalid_period.1 "bogus" 0 (by decide),
    c7_invalid_period.2.1 "bogus" none none 0 (by decide),
    c7_invalid_period.2.2 "bogus" 5 (by decide) (by decide)⟩

/-- C8: for the custom token with parseable dates the part_000 resolver
returns the window from the parsed start to the parsed end advanced to
the last millisecond of its calendar day (so the advanced end lies in the
same day as the parsed end and no instant of that day exceeds it, giving
whole-day semantics for a same-day range); it rejects with the
invalid-range error when the advanced end precedes the start and with the
invalid-date error when either provided date fails to parse. -/
theorem c8_custom_window :
    (∀ s e now : ℤ, ¬ endOfDayUTC e < s →
      part000Resolve "custom" (some (some s)) (some (some e)) now =
        .ok ⟨s, endOfDayUTC e⟩) ∧
    (∀ s e now : ℤ, endOfDayUTC e < s →
      part000Resolve "custom" (some (some s)) (some (some e)) now =
        .error "End date must be after start date") ∧
    (∀ (eP : Option ℤ) (now : ℤ),
      part000Resolve "custom" (some none) (some eP) now =
        .error "Invalid date format") ∧
    (∀ (s : ℤ) (now : ℤ),
      part000Resolve "custom" (some (some s)) (some none) now =
        .error "Invalid date format") ∧
    (∀ e : ℤ, (endOfDayUTC e).fdiv 86400000 = e.fdiv 86400000 ∧
      ∀ t : ℤ, t.fdiv 86400000 = e.fdiv 86400000 → t ≤ endOfDayUTC e) := by
  refine ⟨fun s e now h => ?_, fun s e now h => ?_, fun eP now => ?_,
    fun s now => ?_, fun e => ⟨endOfDayUTC_fdiv e,
      fun t ht => le_endOfDayUTC_of_fdiv_eq ht⟩⟩
  · unfold part000Resolve
    rw [if_pos ⟨rfl, rfl, rfl⟩]
    exact if_neg h
  · unfold part000Resolve
    rw [if_pos ⟨rfl, rfl, rfl⟩]
    exact if_pos h
  · unfold part000Resolve
    rw [if_pos ⟨rfl, rfl, rfl⟩]
  · unfold part000Resolve
    rw [if_pos ⟨rfl, rfl, rfl⟩]

/-- C8 witness: the same-day custom range on 2025-02-03 (parsed start of
day 1738540800000) resolves to the whole calendar day, ending at
23:59:59.999 (1738627199999). -/
theorem c8_custom_window_witness :
    ¬ endOfDayUTC 1738540800000 < 1738540800000 ∧
    part000Resolve "custom" (some (some 1738540800000))
      (some (some 1738540800000)) 0 =
      .ok ⟨1738540800000, 1738627199999⟩ := by
  refine ⟨by decide, ?_⟩
  rw [c8_custom_window.1 1738540800000 1738540800000 0 (by decide)]
  rfl

end HorizonAuto
